import Mathlib

/-!
Shallow embedding of the Aliyun drive auto sign-in program (`app.py`) and a
verification of its specification.  Pure data is modelled directly; the
network endpoints are modelled as response oracles (attempt index to
response); Python exceptions that the program does not catch are modelled
with `Except PyErr`.
-/

namespace AliyunSignin

/-- Uncaught Python exception escaping the program. -/
inductive PyErr where
  | typeError (msg : String)
  | keyError (key : String)
deriving DecidableEq

/-- Body of a credential-exchange (token endpoint) JSON response.  Each field
is `none` when the corresponding key is absent from the JSON object; `raw` is
the textual form of the payload, used when the program interpolates the whole
dict into an error message. -/
structure TokenData where
  code : Option String
  access_token : Option String
  refresh_token : Option String
  user_name : Option String
  raw : String
deriving DecidableEq

/-- Result of one attempt against the token endpoint: either the transport
raises `requests.RequestException` (carrying its text) or a JSON body. -/
inductive TokenResp where
  | transportErr (e : String)
  | ok (data : TokenData)
deriving DecidableEq

/-- Reward descriptor inside a sign-in log entry. -/
structure Reward where
  name : String
  description : String
deriving DecidableEq

/-- One entry of the monthly sign-in log. -/
structure SignInLogEntry where
  status : String
  isReward : Bool
  reward : Reward
deriving DecidableEq

/-- Payload under the `result` key of the sign-in response. -/
structure SignInResult where
  signInCount : Nat
  signInLogs : List SignInLogEntry
deriving DecidableEq

/-- Body of a sign-in endpoint JSON response.  `hasSuccess` models whether
the `success` key is present (the program only tests membership); `result`
is `none` when the `result` key is absent. -/
structure SignInData where
  hasSuccess : Bool
  result : Option SignInResult
  raw : String
deriving DecidableEq

/-- Result of one attempt against the sign-in endpoint. -/
inductive SignInResp where
  | transportErr (e : String)
  | ok (data : SignInData)
deriving DecidableEq

/-- Values the program stores in `self.error`: a caught request exception,
a whole token-response dict, a formatted message, or a whole sign-in
response dict. -/
inductive ErrVal where
  | reqErr (e : String)
  | tokenData (d : TokenData)
  | msg (s : String)
  | signInData (d : SignInData)
deriving DecidableEq

/-- Embedding of `SignIn.__hide_refresh_token`:
`rt[:4] + '*' * len(rt[4:-4]) + rt[-4:]` with Python slice clamping.  The
`except IndexError` fallback in the source is dead code, since Python
slicing never raises `IndexError`. -/
def hide_refresh_token (refresh_token : String) : String :=
  let cs := refresh_token.data
  let n := cs.length
  String.mk (cs.take 4 ++ List.replicate (n - 8) '*' ++ cs.drop (n - 4))

/-- Mutable fields of a `SignIn` object. -/
structure SignInState where
  refresh_token : String
  hide_refresh_token : String
  access_token : Option String
  new_refresh_token : Option String
  phone : Option String
  signin_count : Nat
  signin_reward : Option String
  error : Option ErrVal
deriving DecidableEq

/-- Embedding of `SignIn.__init__`. -/
def SignIn.init (refresh_token : String) : SignInState :=
  { refresh_token := refresh_token
    hide_refresh_token := hide_refresh_token refresh_token
    access_token := none
    new_refresh_token := none
    phone := none
    signin_count := 0
    signin_reward := none
    error := none }

/-- Processing of a successfully transported token response inside
`SignIn.__get_access_token`.  The three assignments are sequential, so a
missing later key (Python `KeyError`, caught by the source) leaves the
earlier assignments in place. -/
def processTokenData (st : SignInState) (data : TokenData) : Bool × SignInState :=
  if data.code = some ("RefreshTokenExpired") ∨ data.code = some ("InvalidParameter.RefreshToken") then
    (false, { st with error := some (ErrVal.tokenData data) })
  else
    match data.access_token with
    | none => (false, { st with error := some (ErrVal.msg ("获取 access token 失败, 参数缺失: " ++ data.raw)) })
    | some tok =>
      let st1 := { st with access_token := some tok }
      match data.refresh_token with
      | none => (false, { st1 with error := some (ErrVal.msg ("获取 access token 失败, 参数缺失: " ++ data.raw)) })
      | some rt =>
        let st2 := { st1 with new_refresh_token := some rt }
        match data.user_name with
        | none => (false, { st2 with error := some (ErrVal.msg ("获取 access token 失败, 参数缺失: " ++ data.raw)) })
        | some un => (true, { st2 with phone := some un })

/-- Embedding of `SignIn.__get_access_token`.  `resps n` is the response the
token endpoint gives to the `n`-th request of this call.  The returned `Nat`
counts the requests actually issued (1 without retry, 2 with the single
automatic retry); on two consecutive transport failures the error stored is
the one of the second attempt. -/
def get_access_token (st : SignInState) (resps : Nat → TokenResp) : Bool × SignInState × Nat :=
  match resps 0 with
  | TokenResp.transportErr _ =>
    match resps 1 with
    | TokenResp.transportErr e2 => (false, { st with error := some (ErrVal.reqErr e2) }, 2)
    | TokenResp.ok data =>
      let r := processTokenData st data
      (r.1, r.2, 2)
  | TokenResp.ok data =>
    let r := processTokenData st data
    (r.1, r.2, 1)

/-- Index of the first log entry whose `status` is `'miss'`, mirroring the
scan loop in `SignIn.__sign_in`. -/
def firstMissIdx : List SignInLogEntry → Option Nat
  | [] => none
  | day :: rest =>
    if day.status == "miss" then some 0
    else (firstMissIdx rest).map (fun i => i + 1)

/-- The `current_day` value computed by `SignIn.__sign_in`: the entry just
before the first missed one.  When the first missed entry is at index 0 the
Python expression `logs[i - 1]` is `logs[-1]`, the last entry; when no entry
is missed, `current_day` stays `None`. -/
def currentDay (logs : List SignInLogEntry) : Option SignInLogEntry :=
  match firstMissIdx logs with
  | none => none
  | some 0 => logs.getLast?
  | some (i + 1) => logs.get? i

/-- Reward text derived from today's entry in `SignIn.__sign_in`. -/
def rewardText (day : SignInLogEntry) : String :=
  if !day.isReward then "无奖励"
  else "获得 " ++ day.reward.name ++ " " ++ day.reward.description

/-- Processing of a successfully transported sign-in response inside
`SignIn.__sign_in`.  A present `success` key with an absent `result` key is
an uncaught `KeyError`; a log without a missed entry leaves `current_day`
as `None` and the subsequent subscript raises an uncaught `TypeError`. -/
def processSignInData (st : SignInState) (data : SignInData) : Except PyErr SignInState :=
  if !data.hasSuccess then
    Except.ok { st with error := some (ErrVal.signInData data) }
  else
    match data.result with
    | none => Except.error (PyErr.keyError ("result"))
    | some res =>
      match currentDay res.signInLogs with
      | none => Except.error (PyErr.typeError ("NoneType object is not subscriptable"))
      | some day =>
        Except.ok { st with
          signin_count := res.signInCount
          signin_reward := some (rewardText day) }

/-- Embedding of `SignIn.__sign_in`, with the same retry-once-on-transport-
failure shape as the token exchange. -/
def sign_in (st : SignInState) (resps : Nat → SignInResp) : Except PyErr (SignInState × Nat) :=
  match resps 0 with
  | SignInResp.transportErr _ =>
    match resps 1 with
    | SignInResp.transportErr e2 => Except.ok ({ st with error := some (ErrVal.reqErr e2) }, 2)
    | SignInResp.ok data => (processSignInData st data).map (fun s => (s, 2))
  | SignInResp.ok data => (processSignInData st data).map (fun s => (s, 1))

/-- Python `str(self.error)`, with `str(None) = "None"` and dicts rendered
through their stored raw text. -/
def strOfError : Option ErrVal → String
  | none => "None"
  | some (ErrVal.reqErr e) => e
  | some (ErrVal.tokenData d) => d.raw
  | some (ErrVal.msg s) => s
  | some (ErrVal.signInData d) => d.raw

/-- Escaping of one character as done by `json.dumps` on a string scalar. -/
def jsonEscapeChar (c : Char) : List Char :=
  if c = '\\' then ['\\', '\\']
  else if c = '"' then ['\\', '"']
  else if c = '\n' then ['\\', 'n']
  else if c = '\t' then ['\\', 't']
  else if c = '\r' then ['\\', 'r']
  else [c]

/-- Python `json.dumps(s, indent=2, ensure_ascii=False)` on a string scalar:
the quoted, escaped string. -/
def jsonDumpsStr (s : String) : String :=
  String.mk ('"' :: (s.data.map jsonEscapeChar).flatten ++ ['"'])

/-- Python `a or b` on an optional string: `None` and the empty string are
falsy. -/
def pyOr (a : Option String) (b : String) : String :=
  match a with
  | none => b
  | some s => if s = "" then b else s

/-- Python string interpolation of an optional value (`None` prints as
`"None"`). -/
def optStr : Option String → String
  | none => "None"
  | some s => s

/-- The dictionary returned by `SignIn.__generate_result`. -/
structure Outcome where
  success : Bool
  user : String
  refresh_token : String
  count : Nat
  reward : Option String
  text : String
  text_html : String
deriving DecidableEq

/-- Embedding of `SignIn.__generate_result`. -/
def generate_result (st : SignInState) : Outcome :=
  let user := pyOr st.phone st.hide_refresh_token
  let text :=
    if st.signin_count ≠ 0 then
      "[" ++ user ++ "] 签到成功, 本月累计签到 " ++ toString st.signin_count
        ++ " 天.\n本次签到" ++ optStr st.signin_reward
    else
      "[" ++ user ++ "] 签到失败\n" ++ jsonDumpsStr (strOfError st.error)
  let text_html :=
    if st.signin_count ≠ 0 then
      "<code>" ++ user ++ "</code> 签到成功, 本月累计签到 " ++ toString st.signin_count
        ++ " 天.\n本次签到" ++ optStr st.signin_reward
    else
      "<code>" ++ user ++ "</code> 签到失败\n<code>"
        ++ jsonDumpsStr (strOfError st.error) ++ "</code>"
  { success := st.signin_count != 0
    user := pyOr st.phone st.hide_refresh_token
    refresh_token := pyOr st.new_refresh_token st.refresh_token
    count := st.signin_count
    reward := st.signin_reward
    text := text
    text_html := text_html }

/-- Embedding of `SignIn.run`: token exchange, then sign-in only on success,
then result generation.  The final `SignInState` is also returned because
`main` reads `access_token` and `phone` off the object afterwards. -/
def SignIn.run (refresh_token : String) (tokenResps : Nat → TokenResp)
    (signInResps : Nat → SignInResp) : Except PyErr (Outcome × SignInState) :=
  let st0 := SignIn.init refresh_token
  let r := get_access_token st0 tokenResps
  if r.1 then
    match sign_in r.2.1 signInResps with
    | Except.error e => Except.error e
    | Except.ok (st2, _) => Except.ok (generate_result st2, st2)
  else
    Except.ok (generate_result r.2.1, r.2.1)

/-- Body of a reward-redemption JSON response.  `success` is `none` when the
key is absent, otherwise its boolean value; `result_message` models
`data['result']['message']`. -/
structure RewardData where
  success : Option Bool
  code : Option String
  message : Option String
  result_message : Option String
deriving DecidableEq

/-- Result of the single request of `reward_code`. -/
inductive RewardResp where
  | transportErr (e : String)
  | ok (data : RewardData)
deriving DecidableEq

/-- Embedding of the module-level `reward_code` function.  Exactly one
request is issued: a transport failure is reported, never retried.  Missing
keys that the source subscripts without guarding are uncaught `KeyError`s. -/
def reward_code (token code : String) (resp : RewardResp) : Except PyErr (Option String) :=
  match resp with
  | RewardResp.transportErr _ => Except.ok (some ("兑换福利码时发生请求错误"))
  | RewardResp.ok data =>
    match data.success with
    | none =>
      match data.message with
      | none => Except.error (PyErr.keyError ("message"))
      | some m => Except.ok (some ("兑换福利码发生错误: " ++ m))
    | some true =>
      match data.result_message with
      | none => Except.error (PyErr.keyError ("message"))
      | some m => Except.ok (some ("兑换福利码成功: " ++ m))
    | some false =>
      match data.code with
      | none => Except.error (PyErr.keyError ("code"))
      | some c =>
        if c = "30009" then Except.ok none
        else
          match data.message with
          | none => Except.error (PyErr.keyError ("message"))
          | some m => Except.ok (some ("兑换福利码失败: " ++ m))

/-- One invocation of a backend adapter recorded by the dispatcher. -/
structure PushCall where
  push_type : String
  content : String
  content_html : String
  title : Option String
deriving DecidableEq

/-- The fixed dict of registered backend adapters in `push`, in insertion
(registration) order. -/
def registeredPushers : List String :=
  ["dingtalk", "serverchan", "pushdeer", "telegram", "pushplus", "smtp", "feishu"]

/-- Python `str.lower` (character-wise lowercasing). -/
def pyLower (s : String) : String := String.mk (s.data.map Char.toLower)

/-- Python `str.strip` (drop leading and trailing whitespace). -/
def pyStrip (s : String) : String :=
  String.mk (((s.data.dropWhile Char.isWhitespace).reverse.dropWhile Char.isWhitespace).reverse)

/-- Normalisation `i.lower().strip()` applied to each configured name. -/
def normalizeName (s : String) : String := pyStrip (pyLower s)

/-- The dispatch loop of `push` over the registration list, recording the
adapter invocations in order. -/
def pushLoop (configured : List String) (content content_html : String)
    (title : Option String) : List String → List PushCall
  | [] => []
  | p :: rest =>
    (if configured.contains p then
      [{ push_type := p, content := content, content_html := content_html, title := title }]
     else [])
      ++ pushLoop configured content content_html title rest

/-- Embedding of the module-level `push` function: normalise the configured
names, then walk the registered adapters in order and invoke the matching
ones with the identical envelope. -/
def push (push_types : List String) (content content_html : String)
    (title : Option String) : List PushCall :=
  pushLoop (push_types.map normalizeName) content content_html title registeredPushers

/-- Environment of one account in `main`: its refresh token and the
responses its three endpoints give. -/
structure AccountEnv where
  refresh_token : String
  tokenResps : Nat → TokenResp
  signInResps : Nat → SignInResp
  rewardResp : RewardResp

/-- Python truthiness of `self.access_token` (`None` and `''` are falsy). -/
def pyTruthy : Option String → Bool
  | none => false
  | some s => s != ""

/-- The reward line appended by `main` for one account: the redemption
message (with the already-redeemed default) keyed by the account's phone. -/
def rewardMessage (st : SignInState) (r : Option String) : String :=
  "[" ++ optStr st.phone ++ "] "
    ++ (match r with
        | none => "已经兑换过这个福利码了."
        | some s => s)

/-- Reward-redemption part of the per-account body of `main`'s loop: skipped
entirely (`continue`) unless the session's access token is truthy, otherwise
one redemption is attempted and its message recorded. -/
def accountReward (env : AccountEnv) (st : SignInState) : Except PyErr (List String) :=
  if pyTruthy st.access_token then
    match reward_code (optStr st.access_token) ("阿里云盘两周年") env.rewardResp with
    | Except.error e => Except.error e
    | Except.ok r => Except.ok [rewardMessage st r]
  else Except.ok ([] : List String)

/-- Per-account loop of `main`: run the session, collect the outcome, and,
only when an access token is (truthily) present, attempt the reward
redemption and record its message. -/
def mainLoop : List AccountEnv → Except PyErr (List Outcome × List String)
  | [] => Except.ok ([], [])
  | env :: rest =>
    match SignIn.run env.refresh_token env.tokenResps env.signInResps with
    | Except.error e => Except.error e
    | Except.ok (outcome, st) =>
      match accountReward env st with
      | Except.error e => Except.error e
      | Except.ok rew =>
        match mainLoop rest with
        | Except.error e => Except.error e
        | Except.ok (outs, rews) => Except.ok (outcome :: outs, rew ++ rews)

/-- Fixed promotional footer appended to the reward-campaign report. -/
def promoFooter : String :=
  "\n\n该功能由 阿里云盘自动签到 https://github.com/ImYrS/aliyun-auto-signin 提供.\n用于尝试自动兑换 500G 福利码, 两周年活动结束后本功能将被移除.\n如果这个项目帮助到了你, 欢迎给我一个 Star 来支持我持续维护和更新."

/-- Observable result of one `main` run (the parts after the account loop):
the collected outcomes and reward lines, the combined report texts, every
dispatcher invocation, and the final refresh-token list. -/
structure MainResult where
  results : List Outcome
  rewards : List String
  text : String
  text_html : String
  pushes : List PushCall
  new_users : List String
deriving DecidableEq

/-- Embedding of `main` after configuration loading: drive every account,
merge the reports, dispatch them, and build the updated refresh-token
list. -/
def mainRun (push_types : List String) (envs : List AccountEnv) : Except PyErr MainResult :=
  match mainLoop envs with
  | Except.error e => Except.error e
  | Except.ok (results, rewards) =>
    let text := String.intercalate ("\n\n") (results.map Outcome.text)
    let text_html := String.intercalate ("\n\n") (results.map Outcome.text_html)
    let pushes1 := push push_types text text_html (some ("阿里云盘签到"))
    let pushes2 :=
      if rewards.isEmpty then []
      else
        let rtext := String.intercalate ("\n\n") rewards ++ promoFooter
        push push_types rtext rtext (some ("阿里云盘两周年"))
    let new_users := results.map Outcome.refresh_token
    Except.ok { results := results, rewards := rewards, text := text, text_html := text_html,
                pushes := pushes1 ++ pushes2, new_users := new_users }

/-!
Helper lemmas about the embedded operations.
-/

theorem processTokenData_preserve (st : SignInState) (d : TokenData) :
    (processTokenData st d).2.refresh_token = st.refresh_token ∧
    (processTokenData st d).2.hide_refresh_token = st.hide_refresh_token ∧
    (processTokenData st d).2.signin_count = st.signin_count ∧
    (processTokenData st d).2.signin_reward = st.signin_reward := by
  rcases d with ⟨c, a, r, u, raw⟩
  by_cases hc : c = some ("RefreshTokenExpired") ∨ c = some ("InvalidParameter.RefreshToken")
  · simp [processTokenData, hc]
  · cases a <;> cases r <;> cases u <;> simp [processTokenData, hc]

theorem processTokenData_error (st : SignInState) (d : TokenData) :
    ((processTokenData st d).1 = true → (processTokenData st d).2.error = st.error) ∧
    ((processTokenData st d).1 = false → ((processTokenData st d).2.error).isSome = true) := by
  rcases d with ⟨c, a, r, u, raw⟩
  by_cases hc : c = some ("RefreshTokenExpired") ∨ c = some ("InvalidParameter.RefreshToken")
  · simp [processTokenData, hc]
  · cases a <;> cases r <;> cases u <;> simp [processTokenData, hc]

theorem get_access_token_preserve (st : SignInState) (resps : Nat → TokenResp) :
    (get_access_token st resps).2.1.refresh_token = st.refresh_token ∧
    (get_access_token st resps).2.1.hide_refresh_token = st.hide_refresh_token ∧
    (get_access_token st resps).2.1.signin_count = st.signin_count ∧
    (get_access_token st resps).2.1.signin_reward = st.signin_reward := by
  cases h0 : resps 0 with
  | transportErr e =>
    cases h1 : resps 1 with
    | transportErr e2 => simp [get_access_token, h0, h1]
    | ok d => simpa [get_access_token, h0, h1] using processTokenData_preserve st d
  | ok d => simpa [get_access_token, h0] using processTokenData_preserve st d

theorem get_access_token_error (st : SignInState) (resps : Nat → TokenResp) :
    ((get_access_token st resps).1 = true → (get_access_token st resps).2.1.error = st.error) ∧
    ((get_access_token st resps).1 = false → ((get_access_token st resps).2.1.error).isSome = true) := by
  cases h0 : resps 0 with
  | transportErr e =>
    cases h1 : resps 1 with
    | transportErr e2 => simp [get_access_token, h0, h1]
    | ok d => simpa [get_access_token, h0, h1] using processTokenData_error st d
  | ok d => simpa [get_access_token, h0] using processTokenData_error st d

theorem processSignInData_ok_cases (st s : SignInState) (d : SignInData)
    (h : processSignInData st d = Except.ok s) :
    (d.hasSuccess = false ∧ s = { st with error := some (ErrVal.signInData d) }) ∨
    (d.hasSuccess = true ∧ ∃ res day, d.result = some res ∧
      currentDay res.signInLogs = some day ∧
      s = { st with signin_count := res.signInCount, signin_reward := some (rewardText day) }) := by
  cases hs : d.hasSuccess
  · left
    refine ⟨rfl, ?_⟩
    simp [processSignInData, hs] at h
    exact h.symm
  · right
    refine ⟨rfl, ?_⟩
    simp only [processSignInData, hs, Bool.not_true, Bool.false_eq_true, if_false] at h
    cases hr : d.result with
    | none => rw [hr] at h; simp at h
    | some res =>
      rw [hr] at h
      dsimp only at h
      cases hd : currentDay res.signInLogs with
      | none => rw [hd] at h; simp at h
      | some day =>
        rw [hd] at h
        simp at h
        exact ⟨res, day, rfl, hd, h.symm⟩

theorem sign_in_ok_cases (st s : SignInState) (n : Nat) (resps : Nat → SignInResp)
    (h : sign_in st resps = Except.ok (s, n)) :
    (∃ e2, s = { st with error := some (ErrVal.reqErr e2) }) ∨
    (∃ d, processSignInData st d = Except.ok s) := by
  cases h0 : resps 0 with
  | transportErr e =>
    cases h1 : resps 1 with
    | transportErr e2 =>
      left
      simp [sign_in, h0, h1] at h
      exact ⟨e2, h.1.symm⟩
    | ok d =>
      right
      simp only [sign_in, h0, h1] at h
      cases hp : processSignInData st d with
      | error e => rw [hp] at h; simp [Except.map] at h
      | ok s2 =>
        rw [hp] at h
        simp [Except.map] at h
        exact ⟨d, by rw [hp, h.1]⟩
  | ok d =>
    right
    simp only [sign_in, h0] at h
    cases hp : processSignInData st d with
    | error e => rw [hp] at h; simp [Except.map] at h
    | ok s2 =>
      rw [hp] at h
      simp [Except.map] at h
      exact ⟨d, by rw [hp, h.1]⟩

theorem run_ok_cases (rt : String) (tr : Nat → TokenResp) (sr : Nat → SignInResp)
    (o : Outcome) (st : SignInState)
    (h : SignIn.run rt tr sr = Except.ok (o, st)) :
    o = generate_result st ∧ st.refresh_token = rt ∧
    (st.error.isSome = true → st.signin_count = 0) := by
  simp only [SignIn.run] at h
  set st0 := SignIn.init rt with hst0
  have hpre := get_access_token_preserve st0 tr
  have herr := get_access_token_error st0 tr
  have hcount0 : st0.signin_count = 0 := rfl
  have hrt0 : st0.refresh_token = rt := rfl
  cases hr1 : (get_access_token st0 tr).1
  · rw [hr1] at h
    simp at h
    obtain ⟨ho, hst⟩ := h
    subst hst
    exact ⟨ho.symm, by rw [hpre.1, hrt0], fun _ => by rw [hpre.2.2.1, hcount0]⟩
  · rw [hr1] at h
    simp only [if_true] at h
    cases hs : sign_in (get_access_token st0 tr).2.1 sr with
    | error e => rw [hs] at h; simp at h
    | ok p =>
      obtain ⟨st2, n⟩ := p
      rw [hs] at h
      simp at h
      obtain ⟨ho, hst⟩ := h
      subst hst
      have hbase_rt : (get_access_token st0 tr).2.1.refresh_token = rt := by rw [hpre.1, hrt0]
      have hbase_cnt : (get_access_token st0 tr).2.1.signin_count = 0 := by rw [hpre.2.2.1, hcount0]
      have hbase_err : (get_access_token st0 tr).2.1.error = none := by
        have := herr.1 hr1
        rw [this]
        rfl
      rcases sign_in_ok_cases _ _ _ _ hs with ⟨e2, hse⟩ | ⟨d, hpd⟩
      · subst hse
        exact ⟨ho.symm, hbase_rt, fun _ => hbase_cnt⟩
      · rcases processSignInData_ok_cases _ _ _ hpd with ⟨_, hse⟩ | ⟨_, res, day, _, _, hse⟩
        · subst hse
          exact ⟨ho.symm, hbase_rt, fun _ => hbase_cnt⟩
        · subst hse
          refine ⟨ho.symm, hbase_rt, fun hcontra => ?_⟩
          rw [show ({ (get_access_token st0 tr).2.1 with
              signin_count := res.signInCount,
              signin_reward := some (rewardText day) } : SignInState).error
              = (get_access_token st0 tr).2.1.error from rfl, hbase_err] at hcontra
          simp at hcontra

theorem firstMissIdx_isSome (logs : List SignInLogEntry)
    (h : ∃ e, e ∈ logs ∧ e.status = "miss") : (firstMissIdx logs).isSome = true := by
  induction logs with
  | nil => simp at h
  | cons day rest ih =>
    obtain ⟨e, he, hs⟩ := h
    by_cases hd : day.status = "miss"
    · simp [firstMissIdx, hd]
    · have he' : e ∈ rest := by
        rcases List.mem_cons.mp he with h1 | h1
        · exact absurd (h1 ▸ hs) hd
        · exact h1
      have := ih ⟨e, he', hs⟩
      simp only [firstMissIdx, beq_iff_eq, hd, if_false]
      simpa using this

theorem firstMissIdx_lt (logs : List SignInLogEntry) (k : Nat)
    (h : firstMissIdx logs = some k) : k < logs.length := by
  induction logs generalizing k with
  | nil => simp [firstMissIdx] at h
  | cons day rest ih =>
    simp only [firstMissIdx] at h
    split at h
    · simp at h
      simp only [List.length_cons]
      omega
    · cases hr : firstMissIdx rest with
      | none => rw [hr] at h; simp at h
      | some j =>
        rw [hr] at h
        simp at h
        have := ih j hr
        simp only [List.length_cons]
        omega

theorem currentDay_isSome (logs : List SignInLogEntry)
    (h : ∃ e, e ∈ logs ∧ e.status = "miss") : (currentDay logs).isSome = true := by
  have h1 := firstMissIdx_isSome logs h
  cases hf : firstMissIdx logs with
  | none => rw [hf] at h1; simp at h1
  | some k =>
    have hk := firstMissIdx_lt logs k hf
    cases k with
    | zero =>
      have hne : logs ≠ [] := by
        intro hcontra
        rw [hcontra] at hk
        simp at hk
      simp [currentDay, hf, List.getLast?_isSome, hne]
    | succ i =>
      have hi : i < logs.length := by omega
      simp [currentDay, hf, List.getElem?_eq_getElem hi]

theorem firstMissIdx_first (logs : List SignInLogEntry) (k : Nat) (hk : k < logs.length)
    (hbefore : ∀ j (hj : j < k), (logs.get ⟨j, Nat.lt_trans hj hk⟩).status ≠ "miss")
    (hmiss : (logs.get ⟨k, hk⟩).status = "miss") :
    firstMissIdx logs = some k := by
  induction logs generalizing k with
  | nil => simp at hk
  | cons day rest ih =>
    cases k with
    | zero =>
      have hd : day.status = "miss" := hmiss
      simp [firstMissIdx, hd]
    | succ j =>
      have hd : day.status ≠ "miss" := hbefore 0 (Nat.succ_pos j)
      have hj' : j < rest.length := by
        have := hk
        simp only [List.length_cons] at this
        omega
      have hr := ih j hj'
        (fun i hi => hbefore (i + 1) (Nat.succ_lt_succ hi))
        hmiss
      simp only [firstMissIdx, beq_iff_eq, hd, if_false, hr]
      rfl

theorem currentDay_first (logs : List SignInLogEntry) (k : Nat) (hk1 : 1 ≤ k)
    (hk : k < logs.length)
    (hbefore : ∀ j (hj : j < k), (logs.get ⟨j, Nat.lt_trans hj hk⟩).status ≠ "miss")
    (hmiss : (logs.get ⟨k, hk⟩).status = "miss") :
    ∃ hk' : k - 1 < logs.length,
      currentDay logs = some (logs.get ⟨k - 1, hk'⟩) := by
  have hf := firstMissIdx_first logs k hk hbefore hmiss
  cases k with
  | zero => omega
  | succ j =>
    have hj : j < logs.length := by omega
    refine ⟨by omega, ?_⟩
    simp only [currentDay, hf, Nat.succ_sub_one]
    exact List.get?_eq_get hj

theorem processSignInData_isOk (st : SignInState) (d : SignInData)
    (H : d.hasSuccess = true →
      ∃ res, d.result = some res ∧ ∃ e, e ∈ res.signInLogs ∧ e.status = "miss") :
    ∃ s, processSignInData st d = Except.ok s := by
  cases hs : d.hasSuccess
  · exact ⟨{ st with error := some (ErrVal.signInData d) }, by simp [processSignInData, hs]⟩
  · obtain ⟨res, hres, hmiss⟩ := H hs
    have hcd := currentDay_isSome res.signInLogs hmiss
    cases hcdv : currentDay res.signInLogs with
    | none => rw [hcdv] at hcd; simp at hcd
    | some day =>
      exact ⟨{ st with signin_count := res.signInCount, signin_reward := some (rewardText day) },
        by simp [processSignInData, hs, hres, hcdv]⟩

theorem sign_in_isOk (st : SignInState) (resps : Nat → SignInResp)
    (H : ∀ n d, resps n = SignInResp.ok d → d.hasSuccess = true →
      ∃ res, d.result = some res ∧ ∃ e, e ∈ res.signInLogs ∧ e.status = "miss") :
    ∃ s n, sign_in st resps = Except.ok (s, n) := by
  cases h0 : resps 0 with
  | transportErr e =>
    cases h1 : resps 1 with
    | transportErr e2 =>
      exact ⟨{ st with error := some (ErrVal.reqErr e2) }, 2, by simp [sign_in, h0, h1]⟩
    | ok d =>
      obtain ⟨s, hs⟩ := processSignInData_isOk st d (fun ht => H 1 d h1 ht)
      exact ⟨s, 2, by simp [sign_in, h0, h1, hs, Except.map]⟩
  | ok d =>
    obtain ⟨s, hs⟩ := processSignInData_isOk st d (fun ht => H 0 d h0 ht)
    exact ⟨s, 1, by simp [sign_in, h0, hs, Except.map]⟩

theorem run_total (rt : String) (tr : Nat → TokenResp) (sr : Nat → SignInResp)
    (H : ∀ n d, sr n = SignInResp.ok d → d.hasSuccess = true →
      ∃ res, d.result = some res ∧ ∃ e, e ∈ res.signInLogs ∧ e.status = "miss") :
    ∃ o st, SignIn.run rt tr sr = Except.ok (o, st) := by
  simp only [SignIn.run]
  set st0 := SignIn.init rt with hst0
  cases hr1 : (get_access_token st0 tr).1
  · refine ⟨generate_result (get_access_token st0 tr).2.1, (get_access_token st0 tr).2.1, ?_⟩
    rw [if_neg (by simp)]
  · obtain ⟨s, n, hs⟩ := sign_in_isOk (get_access_token st0 tr).2.1 sr H
    refine ⟨generate_result s, s, ?_⟩
    rw [if_pos rfl, hs]

/-!
Claim theorems.
-/

/-- C2 (code bug): the claim — and the dead `except IndexError` fallback in
the source — say a credential shorter than 8 characters is returned
unchanged, but Python slicing never raises `IndexError`, so the code returns
first-4 ++ last-4 instead: on the 5-character credential "abcde" the mask is
"abcdbcde", not "abcde". -/
theorem hide_refresh_token_short_case :
    hide_refresh_token ("abcde") = "abcdbcde" ∧ hide_refresh_token ("abcde") ≠ "abcde" := by
  constructor
  · rfl
  · decide

/-- C1 (counterexample): with a well-formed token response and a sign-in
response whose log contains no entry with status `'miss'`, the Account
Session does not return an Account Outcome: `current_day` stays `None` and
the session raises an uncaught `TypeError`. -/
theorem run_no_miss_raises :
    SignIn.run ("token0")
      (fun _ => TokenResp.ok
        { code := none, access_token := some ("at"),
          refresh_token := some ("rt2"), user_name := some ("ph"), raw := "RAW" })
      (fun _ => SignInResp.ok
        { hasSuccess := true,
          result := some
            { signInCount := 3,
              signInLogs := [
                { status := "signed", isReward := false,
                  reward := { name := "n", description := "d" } }] },
          raw := "SRAW" })
      = Except.error (PyErr.typeError ("NoneType object is not subscriptable")) := by
  rfl

/-- C1 (amended): provided every sign-in response that carries a `success`
key also carries a `result` whose log contains at least one `'miss'` entry,
running an Account Session terminates by returning an Account Outcome, and
on every error path (a stored error) the outcome has `success = false` and
streak count 0; without that proviso the session can instead raise an
uncaught `TypeError` (see the counterexample). -/
theorem run_returns_outcome_of_miss_present (rt : String) (tr : Nat → TokenResp)
    (sr : Nat → SignInResp)
    (H : ∀ n d, sr n = SignInResp.ok d → d.hasSuccess = true →
      ∃ res, d.result = some res ∧ ∃ e, e ∈ res.signInLogs ∧ e.status = "miss") :
    ∃ o st, SignIn.run rt tr sr = Except.ok (o, st) ∧
      (st.error.isSome = true → o.success = false ∧ o.count = 0) := by
  obtain ⟨o, st, h⟩ := run_total rt tr sr H
  refine ⟨o, st, h, fun herr => ?_⟩
  obtain ⟨ho, _, hcnt⟩ := run_ok_cases rt tr sr o st h
  have h0 := hcnt herr
  subst ho
  constructor
  · simp [generate_result, h0]
  · simp [generate_result, h0]

/-- Witness for the amended C1 at a concrete input whose sign-in log does
contain a missed entry. -/
theorem run_returns_outcome_of_miss_present_witness :
    ∃ o st, SignIn.run ("token0")
      (fun _ => TokenResp.ok
        { code := none, access_token := some ("at"),
          refresh_token := some ("rt2"), user_name := some ("ph"), raw := "RAW" })
      (fun _ => SignInResp.ok
        { hasSuccess := true,
          result := some
            { signInCount := 5,
              signInLogs := [
                { status := "miss", isReward := false,
                  reward := { name := "n", description := "d" } }] },
          raw := "SR" })
      = Except.ok (o, st) ∧
      (st.error.isSome = true → o.success = false ∧ o.count = 0) := by
  apply run_returns_outcome_of_miss_present
  intro n d hd ht
  have hd' :
      ({ hasSuccess := true,
         result := some
           { signInCount := 5,
             signInLogs := [
               { status := "miss", isReward := false,
                 reward := { name := "n", description := "d" } }] },
         raw := "SR" } : SignInData) = d := SignInResp.ok.inj hd
  subst hd'
  refine ⟨_, rfl, ?_⟩
  exact ⟨{ status := "miss", isReward := false, reward := { name := "n", description := "d" } },
    List.mem_singleton.mpr rfl, rfl⟩

/-- C5: a token response whose provider code marks the refresh credential
expired or invalid makes the exchange fail immediately with that response
stored as the error, after exactly one request — no retry. -/
theorem invalid_refresh_code_no_retry (st : SignInState) (d : TokenData)
    (resps : Nat → TokenResp)
    (h0 : resps 0 = TokenResp.ok d)
    (hcode : d.code = some ("RefreshTokenExpired") ∨ d.code = some ("InvalidParameter.RefreshToken")) :
    get_access_token st resps = (false, { st with error := some (ErrVal.tokenData d) }, 1) := by
  simp only [get_access_token, h0, processTokenData, if_pos hcode]

/-- Witness for C5 at a concrete expired-credential response. -/
theorem invalid_refresh_code_no_retry_witness :
    get_access_token (SignIn.init ("tok"))
      (fun _ => TokenResp.ok
        { code := some ("RefreshTokenExpired"), access_token := none,
          refresh_token := none, user_name := none, raw := "XRAW" })
      = (false,
         { SignIn.init ("tok") with
           error := some (ErrVal.tokenData
             { code := some ("RefreshTokenExpired"), access_token := none,
               refresh_token := none, user_name := none, raw := "XRAW" }) }, 1) :=
  invalid_refresh_code_no_retry (SignIn.init ("tok")) _ _ rfl (Or.inl rfl)

/-- C3: when the first `'miss'` entry of the sign-in log sits at index `k ≥ 1`
and every earlier entry is `'signed'`, the sign-in executor takes the entry
at index `k - 1` as today's entry, derives the reward text from its
reward-claim flag and reward fields, and reports the response's sign-in
count as the streak. -/
theorem sign_in_first_miss_previous_entry (st : SignInState) (d : SignInData)
    (res : SignInResult) (k : Nat)
    (hs : d.hasSuccess = true) (hr : d.result = some res)
    (hk1 : 1 ≤ k) (hk : k < res.signInLogs.length)
    (hbefore : ∀ j (hj : j < k), (res.signInLogs.get ⟨j, Nat.lt_trans hj hk⟩).status = "signed")
    (hmiss : (res.signInLogs.get ⟨k, hk⟩).status = "miss") :
    processSignInData st d = Except.ok { st with
      signin_count := res.signInCount
      signin_reward := some (rewardText (res.signInLogs.get ⟨k - 1, by omega⟩)) } := by
  have hbefore' : ∀ j (hj : j < k),
      (res.signInLogs.get ⟨j, Nat.lt_trans hj hk⟩).status ≠ "miss" := by
    intro j hj
    rw [hbefore j hj]
    decide
  obtain ⟨hk', hcd⟩ := currentDay_first res.signInLogs k hk1 hk hbefore' hmiss
  simp only [processSignInData, hs, Bool.not_true, Bool.false_eq_true, if_false, hr]
  dsimp only
  rw [hcd]

/-- Witness for C3 on a concrete three-entry log with the first missed entry
at index 2. -/
theorem sign_in_first_miss_previous_entry_witness :
    processSignInData (SignIn.init ("tok"))
      { hasSuccess := true,
        result := some
          { signInCount := 7,
            signInLogs := [
              { status := "signed", isReward := false, reward := { name := "a", description := "b" } },
              { status := "signed", isReward := true, reward := { name := "好礼", description := "100G" } },
              { status := "miss", isReward := false, reward := { name := "c", description := "e" } }] },
        raw := "S" }
      = Except.ok
        { SignIn.init ("tok") with
          signin_count := 7,
          signin_reward := some ("获得 好礼 100G") } := by
  have h := sign_in_first_miss_previous_entry (SignIn.init ("tok"))
    { hasSuccess := true,
      result := some
        { signInCount := 7,
          signInLogs := [
            { status := "signed", isReward := false, reward := { name := "a", description := "b" } },
            { status := "signed", isReward := true, reward := { name := "好礼", description := "100G" } },
            { status := "miss", isReward := false, reward := { name := "c", description := "e" } }] },
      raw := "S" }
    { signInCount := 7,
      signInLogs := [
        { status := "signed", isReward := false, reward := { name := "a", description := "b" } },
        { status := "signed", isReward := true, reward := { name := "好礼", description := "100G" } },
        { status := "miss", isReward := false, reward := { name := "c", description := "e" } }] }
    2 rfl rfl (by omega) (by decide) (by decide) (by decide)
  exact h

/-- C4: the credential exchange retries exactly once on transport failure —
a first-attempt transport failure followed by a successful retry (with the
sign-in also going through) yields a successful outcome, while two
consecutive transport failures make the exchange fail with the second
attempt's error recorded in the outcome. -/
theorem credential_exchange_retry_once (rt e1 e2 a r u : String) (d : TokenData)
    (sd : SignInData) (res : SignInResult) (sr : Nat → SignInResp)
    (hcode : ¬(d.code = some ("RefreshTokenExpired") ∨ d.code = some ("InvalidParameter.RefreshToken")))
    (ha : d.access_token = some a) (hrt : d.refresh_token = some r) (hu : d.user_name = some u)
    (hs : sd.hasSuccess = true) (hres : sd.result = some res)
    (hcnt : res.signInCount ≠ 0)
    (hmiss : ∃ e, e ∈ res.signInLogs ∧ e.status = "miss") :
    (∃ o st, SignIn.run rt (fun n => if n = 0 then TokenResp.transportErr e1 else TokenResp.ok d)
        (fun _ => SignInResp.ok sd) = Except.ok (o, st) ∧ o.success = true) ∧
    (∃ o st, SignIn.run rt (fun n => if n = 0 then TokenResp.transportErr e1 else TokenResp.transportErr e2)
        sr = Except.ok (o, st) ∧ st.error = some (ErrVal.reqErr e2) ∧ o.success = false) := by
  constructor
  · have hcd := currentDay_isSome res.signInLogs hmiss
    cases hcdv : currentDay res.signInLogs with
    | none => rw [hcdv] at hcd; simp at hcd
    | some day =>
      have hg : get_access_token (SignIn.init rt)
          (fun n => if n = 0 then TokenResp.transportErr e1 else TokenResp.ok d)
          = (true,
             { SignIn.init rt with
               access_token := some a, new_refresh_token := some r, phone := some u }, 2) := by
        simp [get_access_token, processTokenData, hcode, ha, hrt, hu]
      have hsgn : processSignInData
          ({ SignIn.init rt with
             access_token := some a, new_refresh_token := some r, phone := some u } : SignInState) sd
          = Except.ok
            { SignIn.init rt with
              access_token := some a, new_refresh_token := some r, phone := some u,
              signin_count := res.signInCount, signin_reward := some (rewardText day) } := by
        simp [processSignInData, hs, hres, hcdv]
      refine ⟨generate_result
          { SignIn.init rt with
            access_token := some a, new_refresh_token := some r, phone := some u,
            signin_count := res.signInCount, signin_reward := some (rewardText day) },
        { SignIn.init rt with
          access_token := some a, new_refresh_token := some r, phone := some u,
          signin_count := res.signInCount, signin_reward := some (rewardText day) }, ?_, ?_⟩
      · simp only [SignIn.run, hg]
        simp only [if_true]
        simp only [sign_in, hsgn, Except.map]
      · simp [generate_result, bne_iff_ne, hcnt]
  · have hg : get_access_token (SignIn.init rt)
        (fun n => if n = 0 then TokenResp.transportErr e1 else TokenResp.transportErr e2)
        = (false, { SignIn.init rt with error := some (ErrVal.reqErr e2) }, 2) := by
      simp [get_access_token]
    refine ⟨generate_result { SignIn.init rt with error := some (ErrVal.reqErr e2) },
      { SignIn.init rt with error := some (ErrVal.reqErr e2) }, ?_, rfl, rfl⟩
    simp only [SignIn.run, hg]
    rfl

/-- Witness for C4 on concrete responses. -/
theorem credential_exchange_retry_once_witness :
    (∃ o st, SignIn.run ("token0")
        (fun n => if n = 0 then TokenResp.transportErr ("boom1") else TokenResp.ok
          { code := none, access_token := some ("at"),
            refresh_token := some ("rt2"), user_name := some ("ph"), raw := "RAW" })
        (fun _ => SignInResp.ok
          { hasSuccess := true,
            result := some
              { signInCount := 5,
                signInLogs := [
                  { status := "miss", isReward := false,
                    reward := { name := "n", description := "d" } }] },
            raw := "SR" }) = Except.ok (o, st) ∧ o.success = true) ∧
    (∃ o st, SignIn.run ("token0")
        (fun n => if n = 0 then TokenResp.transportErr ("boom1") else TokenResp.transportErr ("boom2"))
        (fun _ => SignInResp.transportErr ("x")) = Except.ok (o, st) ∧
        st.error = some (ErrVal.reqErr ("boom2")) ∧ o.success = false) := by
  apply credential_exchange_retry_once ("token0") ("boom1") ("boom2") ("at") ("rt2") ("ph")
  · simp
  · rfl
  · rfl
  · rfl
  · rfl
  · rfl
  · decide
  · exact ⟨{ status := "miss", isReward := false, reward := { name := "n", description := "d" } },
      List.mem_singleton.mpr rfl, rfl⟩

/-- Auxiliary: the dispatch loop keeps exactly the registered names that are
in the configured set, in order, each carrying the identical envelope. -/
theorem pushLoop_eq (configured : List String) (c ch : String) (t : Option String) :
    ∀ l, pushLoop configured c ch t l =
      (l.filter (fun p => configured.contains p)).map
        (fun p => { push_type := p, content := c, content_html := ch, title := t }) := by
  intro l
  induction l with
  | nil => rfl
  | cons p rest ih =>
    by_cases hp : p ∈ configured
    · simp [pushLoop, hp, ih, List.filter_cons]
    · simp [pushLoop, hp, ih, List.filter_cons]

/-- C6: the dispatcher invokes exactly those registered adapters whose name
is in the normalised (lowercased, trimmed) configured set — each exactly
once, in registration order, each receiving the identical envelope — and
configured names matching no registered adapter are silently ignored. -/
theorem push_dispatch_spec (push_types : List String) (content content_html : String)
    (title : Option String) :
    push push_types content content_html title =
      (registeredPushers.filter (fun p => (push_types.map normalizeName).contains p)).map
        (fun p => { push_type := p, content := content, content_html := content_html, title := title }) ∧
    ((push push_types content content_html title).map PushCall.push_type).Sublist registeredPushers ∧
    ((push push_types content content_html title).map PushCall.push_type).Nodup ∧
    (∀ p, p ∈ (push push_types content content_html title).map PushCall.push_type ↔
      (p ∈ registeredPushers ∧ (push_types.map normalizeName).contains p = true)) ∧
    (∀ call, call ∈ push push_types content content_html title →
      call.content = content ∧ call.content_html = content_html ∧ call.title = title) := by
  have heq := pushLoop_eq (push_types.map normalizeName) content content_html title registeredPushers
  have hmap : (push push_types content content_html title).map PushCall.push_type
      = registeredPushers.filter (fun p => (push_types.map normalizeName).contains p) := by
    rw [push, heq, List.map_map]
    simp [Function.comp_def]
  refine ⟨heq, ?_, ?_, ?_, ?_⟩
  · rw [hmap]
    exact List.filter_sublist _
  · rw [hmap]
    exact List.Nodup.filter _ (by decide)
  · intro p
    rw [hmap]
    simp [List.mem_filter]
  · intro call hcall
    rw [push, heq] at hcall
    simp only [List.mem_map] at hcall
    obtain ⟨p, _, hc⟩ := hcall
    rw [← hc]
    exact ⟨rfl, rfl, rfl⟩

/-- Witness for C6: with the configured set containing telegram (unnormalised)
and an unknown channel, exactly the telegram adapter is invoked once. -/
theorem push_dispatch_spec_witness :
    (push (["Telegram ", "unknown_channel"]) ("hello") ("hello_html") (some ("title"))).map
      PushCall.push_type = ["telegram"] := by
  rw [(push_dispatch_spec (["Telegram ", "unknown_channel"]) ("hello") ("hello_html")
    (some ("title"))).1]
  rfl

/-- Auxiliary: two character lists with different sixth characters stay
different under arbitrary suffixes. -/
theorem append_ne_of_get5 (p q x y : List Char) (hp : 5 < p.length) (hq : 5 < q.length)
    (hne : p.get ⟨5, hp⟩ ≠ q.get ⟨5, hq⟩) : p ++ x ≠ q ++ y := by
  intro h
  have h5 : (p ++ x)[5]? = (q ++ y)[5]? := by rw [h]
  rw [List.getElem?_append_left hp, List.getElem?_append_left hq,
    List.getElem?_eq_getElem hp, List.getElem?_eq_getElem hq] at h5
  exact hne (Option.some.inj h5)

/-- Auxiliary: two strings with different sixth characters stay different
under arbitrary suffixes. -/
theorem string_prefix_ne (pre1 pre2 m1 m2 : String)
    (hp : 5 < pre1.data.length) (hq : 5 < pre2.data.length)
    (hne : pre1.data.get ⟨5, hp⟩ ≠ pre2.data.get ⟨5, hq⟩) :
    pre1 ++ m1 ≠ pre2 ++ m2 := by
  intro h
  have hd : pre1.data ++ m1.data = pre2.data ++ m2.data := by
    rw [← String.data_append, ← String.data_append, h]
  exact append_ne_of_get5 pre1.data pre2.data m1.data m2.data hp hq hne hd

/-- C9: the reward redeemer returns `None` exactly for a provider response
with `success = false` and the already-redeemed code `'30009'`; a transport
error is reported without any retry (the embedding consumes a single
response); and a response missing the `success` key yields the malformed
message, which differs from the rejected message, the success message, and
the already-redeemed `None` for all message payloads. -/
theorem reward_code_semantics :
    (∀ (token code : String) (resp : RewardResp),
      reward_code token code resp = Except.ok none ↔
        ∃ d, resp = RewardResp.ok d ∧ d.success = some false ∧ d.code = some ("30009")) ∧
    (∀ (token code e : String),
      reward_code token code (RewardResp.transportErr e)
        = Except.ok (some ("兑换福利码时发生请求错误"))) ∧
    (∀ (token code : String) (d : RewardData) (m : String),
      d.success = none → d.message = some m →
        reward_code token code (RewardResp.ok d)
          = Except.ok (some ("兑换福利码发生错误: " ++ m))) ∧
    (∀ m1 m2 m3 : String,
      ("兑换福利码发生错误: " ++ m1 ≠ "兑换福利码失败: " ++ m2) ∧
      ("兑换福利码发生错误: " ++ m1 ≠ "兑换福利码成功: " ++ m3) ∧
      (some ("兑换福利码发生错误: " ++ m1) ≠ (none : Option String))) := by
  refine ⟨?_, ?_, ?_, ?_⟩
  · intro token code resp
    constructor
    · intro h
      cases resp with
      | transportErr e => simp [reward_code] at h
      | ok d =>
        rcases d with ⟨s, c, m, rm⟩
        cases s with
        | none =>
          cases m with
          | none => simp [reward_code] at h
          | some mm => simp [reward_code] at h
        | some b =>
          cases b
          · cases c with
            | none => simp [reward_code] at h
            | some cv =>
              by_cases hc : cv = "30009"
              · exact ⟨{ success := some false, code := some cv, message := m, result_message := rm },
                  rfl, rfl, by rw [hc]⟩
              · cases m with
                | none => simp [reward_code, hc] at h
                | some mm => simp [reward_code, hc] at h
          · cases rm with
            | none => simp [reward_code] at h
            | some mm => simp [reward_code] at h
    · rintro ⟨d, rfl, hs, hc⟩
      simp [reward_code, hs, hc]
  · intro token code e
    rfl
  · intro token code d m hs hm
    simp [reward_code, hs, hm]
  · intro m1 m2 m3
    refine ⟨?_, ?_, by simp⟩
    · exact string_prefix_ne ("兑换福利码发生错误: ") ("兑换福利码失败: ") m1 m2
        (by decide) (by decide) (by decide)
    · exact string_prefix_ne ("兑换福利码发生错误: ") ("兑换福利码成功: ") m1 m3
        (by decide) (by decide) (by decide)

/-- Witness for C9 on concrete responses: the already-redeemed response maps
to `None` and the rejected response does not. -/
theorem reward_code_semantics_witness :
    reward_code ("at") ("阿里云盘两周年")
      (RewardResp.ok
        { success := some false, code := some ("30009"),
          message := some ("msg"), result_message := none })
      = Except.ok none := by
  rw [(reward_code_semantics.1 ("at") ("阿里云盘两周年")
    (RewardResp.ok
      { success := some false, code := some ("30009"),
        message := some ("msg"), result_message := none }))]
  exact ⟨_, rfl, rfl, rfl⟩

/-- C10: an Account Outcome's success flag is true exactly when the recorded
streak count is nonzero, the recorded count is the state's count, and a run
whose sign-in call succeeds with a provider sign-in count of 0 yields
`success = false` with the failure rendering of the absent (`None`) error. -/
theorem outcome_success_iff_count :
    (∀ st : SignInState, ((generate_result st).success = true ↔ st.signin_count ≠ 0)) ∧
    (∀ st : SignInState, (generate_result st).count = st.signin_count) ∧
    (∃ o st, SignIn.run ("token0")
        (fun _ => TokenResp.ok
          { code := none, access_token := some ("at"),
            refresh_token := some ("rt2"), user_name := some ("ph"), raw := "RAW" })
        (fun _ => SignInResp.ok
          { hasSuccess := true,
            result := some
              { signInCount := 0,
                signInLogs := [
                  { status := "miss", isReward := false,
                    reward := { name := "n", description := "d" } }] },
            raw := "SR" })
        = Except.ok (o, st) ∧
      o.success = false ∧ o.count = 0 ∧ st.error = none ∧
      o.text = "[ph] 签到失败\n" ++ jsonDumpsStr (strOfError none)) := by
  refine ⟨?_, ?_, ?_⟩
  · intro st
    simp [generate_result, bne_iff_ne]
  · intro st
    rfl
  · refine ⟨_, _, rfl, rfl, rfl, rfl, ?_⟩
    rfl

/-- Witness for C10: a state with streak count 0 renders an unsuccessful
outcome. -/
theorem outcome_success_iff_count_witness :
    ¬((generate_result (SignIn.init ("tok"))).success = true) := by
  rw [outcome_success_iff_count.1 (SignIn.init ("tok"))]
  simp [SignIn.init]

/-- Auxiliary: a successful `mainLoop` produces one outcome per input
account, in order, each being the pure session run of its own account. -/
theorem mainLoop_ok_spec (envs : List AccountEnv) (outs : List Outcome) (rews : List String)
    (h : mainLoop envs = Except.ok (outs, rews)) :
    outs.length = envs.length ∧
    ∀ i (h1 : i < envs.length) (h2 : i < outs.length),
      ∃ st, SignIn.run (envs.get ⟨i, h1⟩).refresh_token (envs.get ⟨i, h1⟩).tokenResps
          (envs.get ⟨i, h1⟩).signInResps = Except.ok (outs.get ⟨i, h2⟩, st) := by
  induction envs generalizing outs rews with
  | nil =>
    simp only [mainLoop] at h
    injection h with h'
    injection h' with h1 h2
    subst h1
    exact ⟨rfl, fun i hi1 hi2 => absurd hi1 (by simp)⟩
  | cons env rest ih =>
    simp only [mainLoop] at h
    cases hr : SignIn.run env.refresh_token env.tokenResps env.signInResps with
    | error e => rw [hr] at h; simp at h
    | ok p =>
      obtain ⟨o, st⟩ := p
      rw [hr] at h
      dsimp only at h
      cases ha : accountReward env st with
      | error e => rw [ha] at h; simp at h
      | ok rew =>
        rw [ha] at h
        dsimp only at h
        cases hm : mainLoop rest with
        | error e => rw [hm] at h; simp at h
        | ok q =>
          obtain ⟨outs', rews'⟩ := q
          rw [hm] at h
          dsimp only at h
          injection h with h'
          injection h' with ho hrw
          subst ho
          obtain ⟨hl, hidx⟩ := ih outs' rews' hm
          constructor
          · simp [hl]
          · intro i h1 h2
            cases i with
            | zero => exact ⟨st, hr⟩
            | succ j =>
              have hj1 : j < rest.length := by
                simp only [List.length_cons] at h1
                omega
              have hj2 : j < outs'.length := by
                simp only [List.length_cons] at h2
                omega
              obtain ⟨st', hst'⟩ := hidx j hj1 hj2
              exact ⟨st', hst'⟩

/-- C7: a successful run produces the combined plain and marked-up reports
as the double-newline join of the per-account renderings in account order,
and a refresh-credential list with exactly one entry per input account, in
order, where each entry is the rotated credential when the exchange stored
one and the account's original credential otherwise. -/
theorem main_aggregation (push_types : List String) (envs : List AccountEnv) (res : MainResult)
    (h : mainRun push_types envs = Except.ok res) :
    res.text = String.intercalate ("\n\n") (res.results.map Outcome.text) ∧
    res.text_html = String.intercalate ("\n\n") (res.results.map Outcome.text_html) ∧
    res.new_users = res.results.map Outcome.refresh_token ∧
    res.results.length = envs.length ∧
    (∀ i (h1 : i < envs.length) (h2 : i < res.results.length),
      ∃ st, SignIn.run (envs.get ⟨i, h1⟩).refresh_token (envs.get ⟨i, h1⟩).tokenResps
          (envs.get ⟨i, h1⟩).signInResps = Except.ok (res.results.get ⟨i, h2⟩, st) ∧
        (res.results.get ⟨i, h2⟩).refresh_token
          = pyOr st.new_refresh_token (envs.get ⟨i, h1⟩).refresh_token) := by
  simp only [mainRun] at h
  cases hm : mainLoop envs with
  | error e => rw [hm] at h; simp at h
  | ok p =>
    obtain ⟨outs, rews⟩ := p
    rw [hm] at h
    dsimp only at h
    have hres := Except.ok.inj h
    subst hres
    obtain ⟨hl, hidx⟩ := mainLoop_ok_spec envs outs rews hm
    refine ⟨rfl, rfl, rfl, hl, ?_⟩
    intro i h1 h2
    obtain ⟨st, hst⟩ := hidx i h1 h2
    refine ⟨st, hst, ?_⟩
    obtain ⟨ho, hrt, _⟩ := run_ok_cases _ _ _ _ _ hst
    rw [ho]
    show pyOr st.new_refresh_token st.refresh_token = pyOr st.new_refresh_token _
    rw [hrt]

/-- Witness for C7 on one concrete account whose token exchange fails with
an expired credential, so the original refresh token is kept. -/
theorem main_aggregation_witness :
    (mainRun []
      [{ refresh_token := "abcdefghijkl",
         tokenResps := fun _ => TokenResp.ok
           { code := some ("RefreshTokenExpired"), access_token := none,
             refresh_token := none, user_name := none, raw := "XRAW" },
         signInResps := fun _ => SignInResp.transportErr ("x"),
         rewardResp := RewardResp.transportErr ("y") }]
      = Except.ok
        { results := [
            { success := false, user := "abcd****ijkl", refresh_token := "abcdefghijkl",
              count := 0, reward := none,
              text := "[abcd****ijkl] 签到失败\n\"XRAW\"",
              text_html := "<code>abcd****ijkl</code> 签到失败\n<code>\"XRAW\"</code>" }],
          rewards := [],
          text := "[abcd****ijkl] 签到失败\n\"XRAW\"",
          text_html := "<code>abcd****ijkl</code> 签到失败\n<code>\"XRAW\"</code>",
          pushes := [],
          new_users := ["abcdefghijkl"] }) ∧
    ({ results := [
         { success := false, user := "abcd****ijkl", refresh_token := "abcdefghijkl",
           count := 0, reward := none,
           text := "[abcd****ijkl] 签到失败\n\"XRAW\"",
           text_html := "<code>abcd****ijkl</code> 签到失败\n<code>\"XRAW\"</code>" }],
       rewards := [],
       text := "[abcd****ijkl] 签到失败\n\"XRAW\"",
       text_html := "<code>abcd****ijkl</code> 签到失败\n<code>\"XRAW\"</code>",
       pushes := [],
       new_users := ["abcdefghijkl"] } : MainResult).text
      = String.intercalate ("\n\n")
        (({ results := [
              { success := false, user := "abcd****ijkl", refresh_token := "abcdefghijkl",
                count := 0, reward := none,
                text := "[abcd****ijkl] 签到失败\n\"XRAW\"",
                text_html := "<code>abcd****ijkl</code> 签到失败\n<code>\"XRAW\"</code>" }],
            rewards := [],
            text := "[abcd****ijkl] 签到失败\n\"XRAW\"",
            text_html := "<code>abcd****ijkl</code> 签到失败\n<code>\"XRAW\"</code>",
            pushes := [],
            new_users := ["abcdefghijkl"] } : MainResult).results.map Outcome.text) := by
  refine ⟨by rfl, ?_⟩
  have h := main_aggregation []
    [{ refresh_token := "abcdefghijkl",
       tokenResps := fun _ => TokenResp.ok
         { code := some ("RefreshTokenExpired"), access_token := none,
           refresh_token := none, user_name := none, raw := "XRAW" },
       signInResps := fun _ => SignInResp.transportErr ("x"),
       rewardResp := RewardResp.transportErr ("y") }]
    { results := [
        { success := false, user := "abcd****ijkl", refresh_token := "abcdefghijkl",
          count := 0, reward := none,
          text := "[abcd****ijkl] 签到失败\n\"XRAW\"",
          text_html := "<code>abcd****ijkl</code> 签到失败\n<code>\"XRAW\"</code>" }],
      rewards := [],
      text := "[abcd****ijkl] 签到失败\n\"XRAW\"",
      text_html := "<code>abcd****ijkl</code> 签到失败\n<code>\"XRAW\"</code>",
      pushes := [],
      new_users := ["abcdefghijkl"] }
    (by rfl)
  exact h.1

/-- C8: within `main`'s loop an account's reward redemption is attempted if
and only if the session left a (truthy) access token — independently of
whether the sign-in itself succeeded — and when attempted, exactly one
message keyed by the account's phone identifier is recorded. -/
theorem reward_attempt_iff_token (env : AccountEnv) (rest : List AccountEnv)
    (o : Outcome) (st : SignInState) (rr : Option String)
    (outs : List Outcome) (rews : List String)
    (hrun : SignIn.run env.refresh_token env.tokenResps env.signInResps = Except.ok (o, st))
    (hrc : reward_code (optStr st.access_token) ("阿里云盘两周年") env.rewardResp = Except.ok rr)
    (hrest : mainLoop rest = Except.ok (outs, rews)) :
    mainLoop (env :: rest) = Except.ok (o :: outs,
      (if pyTruthy st.access_token = true then [rewardMessage st rr] else []) ++ rews) := by
  simp only [mainLoop, hrun, accountReward]
  by_cases ht : pyTruthy st.access_token = true
  · simp [ht, hrc, hrest]
  · simp [ht, hrest]

/-- Witness for C8 on a concrete account whose token exchange succeeds but
whose sign-in fails: the reward redemption is still attempted and its
message recorded keyed by the phone identifier. -/
theorem reward_attempt_iff_token_witness :
    mainLoop [
      { refresh_token := "tok",
        tokenResps := fun _ => TokenResp.ok
          { code := none, access_token := some ("at"),
            refresh_token := some ("rt2"), user_name := some ("ph"), raw := "RAW" },
        signInResps := fun _ => SignInResp.ok
          { hasSuccess := false, result := none, raw := "SRAW" },
        rewardResp := RewardResp.ok
          { success := some false, code := some ("30009"),
            message := none, result_message := none } }]
      = Except.ok ([
          { success := false, user := "ph", refresh_token := "rt2",
            count := 0, reward := none,
            text := "[ph] 签到失败\n\"SRAW\"",
            text_html := "<code>ph</code> 签到失败\n<code>\"SRAW\"</code>" }],
         ["[ph] 已经兑换过这个福利码了."]) := by
  have h := reward_attempt_iff_token
    { refresh_token := "tok",
      tokenResps := fun _ => TokenResp.ok
        { code := none, access_token := some ("at"),
          refresh_token := some ("rt2"), user_name := some ("ph"), raw := "RAW" },
      signInResps := fun _ => SignInResp.ok
        { hasSuccess := false, result := none, raw := "SRAW" },
      rewardResp := RewardResp.ok
        { success := some false, code := some ("30009"),
          message := none, result_message := none } }
    []
    { success := false, user := "ph", refresh_token := "rt2",
      count := 0, reward := none,
      text := "[ph] 签到失败\n\"SRAW\"",
      text_html := "<code>ph</code> 签到失败\n<code>\"SRAW\"</code>" }
    { refresh_token := "tok", hide_refresh_token := "toktok",
      access_token := some ("at"), new_refresh_token := some ("rt2"),
      phone := some ("ph"), signin_count := 0, signin_reward := none,
      error := some (ErrVal.signInData { hasSuccess := false, result := none, raw := "SRAW" }) }
    none [] [] (by rfl) (by rfl) (by rfl)
  exact h

end AliyunSignin
